import Mathlib

/-!
# go-client: the IAM-authenticated MySQL opener (`db/main.go`)

A shallow embedding of `MysqlIAM.Open` and of the start-up part of `main`.

The calls that leave the repository (`mysql.ParseDSN`, `auth.BuildAuthToken`,
`mysql.NewConnector`, `connector.Connect`, `x509.AppendCertsFromPEM`, ...) are
fields of an environment record.  Each of them is a state transformer over an
arbitrary world `σ`, so that a call may answer differently each time it is made
(a provider that fails once and then succeeds).  Every embedded function
returns, next to its Go result, the list of external calls it made, in order.
-/

namespace GoClient

/-! ## Data model -/

/-- The fields of `mysql.Config` that `db/main.go` reads or writes. Durations
are nanoseconds, `Loc` is the name of the time zone. -/
structure Config where
  User : String
  Passwd : String
  Net : String
  Addr : String
  DBName : String
  Collation : String
  Loc : String
  MaxAllowedPacket : Nat
  TLSConfig : String
  Timeout : Nat
  ReadTimeout : Nat
  WriteTimeout : Nat
  AllowCleartextPasswords : Bool
  AllowNativePasswords : Bool
  CheckConnLiveness : Bool
  ParseTime : Bool
deriving DecidableEq, Repr

/-- The constant `maxAuthTokenRetries` of `db/main.go`. -/
def maxAuthTokenRetries : Nat := 2

/-- The struct `MysqlIAM`; `Cred` stands for `aws.CredentialsProvider`. -/
structure MysqlIAM (Cred : Type) where
  OverridePassword : Bool
  AWSRegion : String
  AWSCredentials : Cred
deriving DecidableEq, Repr

/-- One external call made by `MysqlIAM.Open`, with the arguments it was given. -/
inductive Event (Cred Connector : Type) where
  | parseDSN (dsn : String)
  | buildAuthToken (endpoint region dbUser : String) (creds : Cred)
  | newConnector (cfg : Config)
  | connect (c : Connector)
deriving DecidableEq, Repr

/-- The external collaborators of `MysqlIAM.Open`. A Go result `(v, err)` that
the caller inspects before using `v` is an `Except`; `BuildAuthToken` and
`Connect` keep both components of the Go pair (`none` is `nil`). -/
structure Env (σ Err Cred Connector Conn : Type) where
  ParseDSN : String → σ → Except Err Config × σ
  BuildAuthToken : String → String → String → Cred → σ → (String × Option Err) × σ
  NewConnector : Config → σ → Except Err Connector × σ
  Connect : Connector → σ → (Option Conn × Option Err) × σ

/-- What a call of `MysqlIAM.Open` leaves behind: the Go result pair
`(driver.Conn, error)`, the world after the call and the external calls made. -/
structure Outcome (σ Err Cred Connector Conn : Type) where
  conn : Option Conn
  err : Option Err
  world : σ
  trace : List (Event Cred Connector)

section Open

variable {σ Err Cred Connector Conn : Type}

/-- The loop `for i := 0; i < maxAuthTokenRetries; i++` of `Open` (lines 45-50),
entered with `remaining = maxAuthTokenRetries - i` iterations left and the
current values of the variables `authToken` and `err`. Every iteration assigns
both variables from `auth.BuildAuthToken` and leaves the loop when `err == nil`. -/
def authTokenLoop (env : Env σ Err Cred Connector Conn) (m : MysqlIAM Cred) (cfg : Config) :
    Nat → String → Option Err → σ → String × Option Err × σ × List (Event Cred Connector)
  | 0, authToken, err, s => (authToken, err, s, [])
  | remaining + 1, _, _, s =>
    match env.BuildAuthToken cfg.Addr m.AWSRegion cfg.User m.AWSCredentials s with
    | ((authToken, none), s1) =>
      (authToken, none, s1,
        [Event.buildAuthToken cfg.Addr m.AWSRegion cfg.User m.AWSCredentials])
    | ((authToken, some e), s1) =>
      match authTokenLoop env m cfg remaining authToken (some e) s1 with
      | (tok, err, s2, tr) =>
        (tok, err, s2,
          Event.buildAuthToken cfg.Addr m.AWSRegion cfg.User m.AWSCredentials :: tr)

/-- Lines 57-61 of `Open`: `mysql.NewConnector(cfg)`, an early `return nil, err`
when it fails, otherwise `return connector.Connect(context.Background())`. -/
def connectWith (env : Env σ Err Cred Connector Conn) (cfg : Config) (s : σ) :
    Outcome σ Err Cred Connector Conn :=
  match env.NewConnector cfg s with
  | (Except.error e, s1) =>
    { conn := none, err := some e, world := s1, trace := [Event.newConnector cfg] }
  | (Except.ok connector, s1) =>
    match env.Connect connector s1 with
    | ((c, e), s2) =>
      { conn := c, err := e, world := s2,
        trace := [Event.newConnector cfg, Event.connect connector] }

/-- The method `(m *MysqlIAM) Open(dsn string) (driver.Conn, error)`. -/
def MysqlIAM.Open (env : Env σ Err Cred Connector Conn) (m : MysqlIAM Cred) (dsn : String)
    (s : σ) : Outcome σ Err Cred Connector Conn :=
  match env.ParseDSN dsn s with
  | (Except.error e, s1) =>
    { conn := none, err := some e, world := s1, trace := [Event.parseDSN dsn] }
  | (Except.ok cfg, s1) =>
    if m.OverridePassword then
      match authTokenLoop env m cfg maxAuthTokenRetries "" none s1 with
      | (_, some e, s2, tr) =>
        { conn := none, err := some e, world := s2, trace := Event.parseDSN dsn :: tr }
      | (authToken, none, s2, tr) =>
        let r := connectWith env { cfg with Passwd := authToken } s2
        { r with trace := Event.parseDSN dsn :: (tr ++ r.trace) }
    else
      let r := connectWith env cfg s1
      { r with trace := Event.parseDSN dsn :: r.trace }

end Open

/-! ## Observations on a trace -/

section Observations

variable {Cred Connector : Type}

/-- Is the event a call of `auth.BuildAuthToken`? -/
def Event.isBuildAuthToken : Event Cred Connector → Bool
  | Event.buildAuthToken _ _ _ _ => true
  | _ => false

/-- Is the event a call of `mysql.NewConnector`? -/
def Event.isNewConnector : Event Cred Connector → Bool
  | Event.newConnector _ => true
  | _ => false

/-- Is the event a call of `connector.Connect`, the network handshake? -/
def Event.isConnect : Event Cred Connector → Bool
  | Event.connect _ => true
  | _ => false

/-- Number of calls of `auth.BuildAuthToken` in a trace. -/
def tokenCalls (tr : List (Event Cred Connector)) : Nat :=
  (tr.filter Event.isBuildAuthToken).length

/-- Number of calls of `mysql.NewConnector` in a trace. -/
def connectorCalls (tr : List (Event Cred Connector)) : Nat :=
  (tr.filter Event.isNewConnector).length

/-- Number of calls of `connector.Connect` in a trace: the network-attempt counter. -/
def networkAttempts (tr : List (Event Cred Connector)) : Nat :=
  (tr.filter Event.isConnect).length

/-- The configurations handed to `mysql.NewConnector`, in call order. -/
def handedConfigs : List (Event Cred Connector) → List Config
  | [] => []
  | Event.newConnector cfg :: tr => cfg :: handedConfigs tr
  | _ :: tr => handedConfigs tr

end Observations

/-! ## Start-up (`main`) -/

/-- The fields of `aws.Config` that `main` uses. -/
structure AwsConfig (Cred : Type) where
  Region : String
  Credentials : Cred
deriving DecidableEq, Repr

/-- One step of `main` that acts on the process or on a registry. Plain printing
(`fmt.Println`, `log.Println`) is left out; `fatal` is `log.Fatal`, which prints
and ends the process with `os.Exit(1)` without running deferred calls. -/
inductive MainEvent (Cred Pool : Type) where
  | loadDefaultConfig
  | appendCertsFromPEM (pem : List Nat)
  | fatal (msg : String)
  | registerTLSConfig (key : String) (rootCAs : Pool)
  | register (name : String) (driver : MysqlIAM Cred)
  | sqlOpen (driverName dsn : String)
  | session (dsn : String)
deriving DecidableEq, Repr

/-- The external collaborators of `main`. `Session` is what `main` does with the
database handle once `sql.Open` has succeeded (lines 123-191: pool settings,
pings, queries and scans); all physical connections are opened in there. -/
structure MainEnv (σ Err Cred Pool : Type) where
  Getenv : String → String
  LoadDefaultConfig : σ → Except Err (AwsConfig Cred) × σ
  NewCertPool : Pool
  AppendCertsFromPEM : Pool → List Nat → Pool × Bool
  RegisterTLSConfig : String → Pool → σ → σ
  Register : String → MysqlIAM Cred → σ → σ
  FormatDSN : Config → String
  SqlOpen : String → String → σ → Option Err × σ
  Session : String → σ → σ

/-- The world after `main` and the steps it took. -/
structure MainOutcome (σ Cred Pool : Type) where
  world : σ
  trace : List (MainEvent Cred Pool)

section Main

variable {σ Err Cred Pool : Type}

/-- The literal `mysql.Config{...}` built in `main` (lines 98-115). -/
def mysqlConfig (dbUser dbEndpoint dbName : String) : Config :=
  { User := dbUser
    Passwd := "#OVERRIDE#"
    Net := "tcp"
    Addr := dbEndpoint
    DBName := dbName
    Collation := "utf8mb4_general_ci"
    Loc := "UTC"
    MaxAllowedPacket := 4 * 2 ^ 20
    TLSConfig := "aws-rds"
    Timeout := 10 * 1000000000
    ReadTimeout := 10 * 1000000000
    WriteTimeout := 10 * 1000000000
    AllowCleartextPasswords := true
    AllowNativePasswords := true
    CheckConnLiveness := true
    ParseTime := true }

/-- The function `main`, with the embedded file `cert/ca-cert.pem` as the
argument `awsRootCAPem`. -/
def main (env : MainEnv σ Err Cred Pool) (awsRootCAPem : List Nat) (s : σ) :
    MainOutcome σ Cred Pool :=
  let dbEndpoint := env.Getenv "DB_HOSTNAME"
  let dbUser := env.Getenv "DB_USERNAME"
  let dbName := env.Getenv "DB_NAME"
  match env.LoadDefaultConfig s with
  | (Except.error _, s1) =>
    { world := s1, trace := [MainEvent.loadDefaultConfig, MainEvent.fatal "load config:"] }
  | (Except.ok cfg, s1) =>
    match env.AppendCertsFromPEM env.NewCertPool awsRootCAPem with
    | (_, false) =>
      { world := s1
        trace := [MainEvent.loadDefaultConfig, MainEvent.appendCertsFromPEM awsRootCAPem,
          MainEvent.fatal "append PEM"] }
    | (rootCertPool, true) =>
      let s2 := env.RegisterTLSConfig "aws-rds" rootCertPool s1
      let driver : MysqlIAM Cred :=
        { OverridePassword := true, AWSRegion := cfg.Region, AWSCredentials := cfg.Credentials }
      let s3 := env.Register "mysql-aws-iam" driver s2
      let connectStr := env.FormatDSN (mysqlConfig dbUser dbEndpoint dbName)
      match env.SqlOpen "mysql-aws-iam" connectStr s3 with
      | (some _, s4) =>
        { world := s4
          trace := [MainEvent.loadDefaultConfig, MainEvent.appendCertsFromPEM awsRootCAPem,
            MainEvent.registerTLSConfig "aws-rds" rootCertPool,
            MainEvent.register "mysql-aws-iam" driver,
            MainEvent.sqlOpen "mysql-aws-iam" connectStr, MainEvent.fatal "create dsn:"] }
      | (none, s4) =>
        { world := env.Session connectStr s4
          trace := [MainEvent.loadDefaultConfig, MainEvent.appendCertsFromPEM awsRootCAPem,
            MainEvent.registerTLSConfig "aws-rds" rootCertPool,
            MainEvent.register "mysql-aws-iam" driver,
            MainEvent.sqlOpen "mysql-aws-iam" connectStr, MainEvent.session connectStr] }

/-- Does the step register a TLS profile, register a driver, open the database
handle or run the database session? -/
def MainEvent.registersOrOpens : MainEvent Cred Pool → Bool
  | MainEvent.registerTLSConfig _ _ => true
  | MainEvent.register _ _ => true
  | MainEvent.sqlOpen _ _ => true
  | MainEvent.session _ => true
  | _ => false

end Main

/-! ## Concrete environments -/

/-- The connection string of the specification's scenario. -/
def scenarioDSN : String := "user:placeholder@tcp(db.example.com:3306)/mydb?tls=aws-rds"

/-- The configuration `scenarioDSN` stands for. -/
def scenarioConfig : Config :=
  { User := "user"
    Passwd := "placeholder"
    Net := "tcp"
    Addr := "db.example.com:3306"
    DBName := "mydb"
    Collation := "utf8mb4_general_ci"
    Loc := "UTC"
    MaxAllowedPacket := 4 * 2 ^ 20
    TLSConfig := "aws-rds"
    Timeout := 0
    ReadTimeout := 0
    WriteTimeout := 0
    AllowCleartextPasswords := false
    AllowNativePasswords := true
    CheckConnLiveness := true
    ParseTime := false }

/-- A connection string that names no user. -/
def anonymousDSN : String := "tcp(db.example.com:3306)/mydb?tls=aws-rds"

/-- The configuration `anonymousDSN` stands for: user and password are empty. -/
def anonymousConfig : Config := { scenarioConfig with User := "", Passwd := "" }

/-- A test double of the collaborators. The world is the number of provider
calls made so far. The parser accepts `scenarioDSN` and `anonymousDSN` and
nothing else; the provider answers from `script` (call `k` gets entry `k`, and
an error once the script is used up); the connector is built when `accept`
holds; the handshake yields a connection, which is the configuration it was
opened with, when `reachable` holds and an error otherwise. -/
def scriptedEnv (script : List (String × Option String)) (accept reachable : Bool) :
    Env Nat String String Config Config :=
  { ParseDSN := fun dsn s =>
      if dsn = scenarioDSN then (Except.ok scenarioConfig, s)
      else if dsn = anonymousDSN then (Except.ok anonymousConfig, s)
      else (Except.error "invalid DSN", s)
    BuildAuthToken := fun _ _ _ _ s =>
      (script.getD s ("", some "no answer"), s + 1)
    NewConnector := fun cfg s =>
      if accept then (Except.ok cfg, s) else (Except.error "invalid config", s)
    Connect := fun c s =>
      if reachable then ((some c, none), s) else ((none, some "connection refused"), s) }

/-- The registration made by `main`, for region `us-east-1`. -/
def scenarioIAM : MysqlIAM String :=
  { OverridePassword := true, AWSRegion := "us-east-1", AWSCredentials := "creds" }

/-- A registration in override mode whose region is the empty string. -/
def regionlessIAM : MysqlIAM String :=
  { OverridePassword := true, AWSRegion := "", AWSCredentials := "creds" }

/-- A registration with override mode switched off. -/
def staticIAM : MysqlIAM String :=
  { OverridePassword := false, AWSRegion := "us-east-1", AWSCredentials := "creds" }

/-- A test double of the collaborators of `main`: the world counts the steps
taken, a certificate bundle is accepted when it is not empty. -/
def scriptedMainEnv : MainEnv Nat String String (List Nat) :=
  { Getenv := fun key => key
    LoadDefaultConfig := fun s =>
      (Except.ok { Region := "us-east-1", Credentials := "creds" }, s + 1)
    NewCertPool := []
    AppendCertsFromPEM := fun pool pem => (pool ++ pem, !pem.isEmpty)
    RegisterTLSConfig := fun _ _ s => s + 1
    Register := fun _ _ s => s + 1
    FormatDSN := fun cfg => cfg.User ++ "@tcp(" ++ cfg.Addr ++ ")/" ++ cfg.DBName
    SqlOpen := fun _ _ s => (none, s + 1)
    Session := fun _ s => s + 1 }

/-- A test double whose provider shows the arguments it was called with. The
world is the number of provider calls made so far; the first `failures` calls
fail, with the arguments in the error, and each later call returns the
arguments as the token. The parser, the connector and the handshake are those
of `scriptedEnv` with an accepting connector and a reachable server. -/
def echoEnv (failures : Nat) : Env Nat String String Config Config :=
  { ParseDSN := (scriptedEnv [] true true).ParseDSN
    BuildAuthToken := fun endpoint region dbUser creds s =>
      if s < failures then
        (("", some ("denied " ++ endpoint ++ "|" ++ region ++ "|" ++ dbUser ++ "|" ++ creds)),
          s + 1)
      else ((endpoint ++ "|" ++ region ++ "|" ++ dbUser ++ "|" ++ creds, none), s + 1)
    NewConnector := (scriptedEnv [] true true).NewConnector
    Connect := (scriptedEnv [] true true).Connect }

/-! ## The token loop -/

section Lemmas

variable {σ Err Cred Connector Conn : Type}

theorem tokenCalls_replicate (k : Nat) (a r u : String) (c : Cred) :
    tokenCalls (List.replicate k (Event.buildAuthToken a r u c : Event Cred Connector)) = k := by
  induction k with
  | zero => rfl
  | succ k ih =>
    simp only [tokenCalls, List.replicate_succ, List.filter_cons, Event.isBuildAuthToken] at ih ⊢
    simp [ih]

theorem networkAttempts_replicate (k : Nat) (a r u : String) (c : Cred) :
    networkAttempts
      (List.replicate k (Event.buildAuthToken a r u c : Event Cred Connector)) = 0 := by
  induction k with
  | zero => rfl
  | succ k ih =>
    simp only [networkAttempts, List.replicate_succ, List.filter_cons, Event.isConnect] at ih ⊢
    simpa using ih

theorem handedConfigs_replicate (k : Nat) (a r u : String) (c : Cred) :
    handedConfigs
      (List.replicate k (Event.buildAuthToken a r u c : Event Cred Connector)) = [] := by
  induction k with
  | zero => rfl
  | succ k ih => simpa [List.replicate_succ, handedConfigs] using ih

theorem handedConfigs_append (xs ys : List (Event Cred Connector)) :
    handedConfigs (xs ++ ys) = handedConfigs xs ++ handedConfigs ys := by
  induction xs with
  | nil => rfl
  | cons x xs ih => cases x <;> simp [handedConfigs, ih]

/-- The trace of the token loop is `k` identical provider calls, `k` at most the
number of iterations allowed and at least one when an iteration is allowed. -/
theorem authTokenLoop_trace (env : Env σ Err Cred Connector Conn) (m : MysqlIAM Cred)
    (cfg : Config) (n : Nat) (tok : String) (err : Option Err) (s : σ) :
    ∃ k, k ≤ n ∧ (0 < n → 0 < k) ∧
      (authTokenLoop env m cfg n tok err s).2.2.2 =
        List.replicate k
          (Event.buildAuthToken cfg.Addr m.AWSRegion cfg.User m.AWSCredentials) := by
  induction n generalizing tok err s with
  | zero => exact ⟨0, le_refl 0, fun h => h, rfl⟩
  | succ n ih =>
    rcases hb : env.BuildAuthToken cfg.Addr m.AWSRegion cfg.User m.AWSCredentials s with
      ⟨⟨t, e⟩, s1⟩
    cases e with
    | none =>
      refine ⟨1, Nat.succ_le_succ (Nat.zero_le n), fun _ => Nat.one_pos, ?_⟩
      simp [authTokenLoop, hb]
    | some e =>
      obtain ⟨k, hk, _, htr⟩ := ih t (some e) s1
      refine ⟨k + 1, Nat.succ_le_succ hk, fun _ => Nat.succ_pos k, ?_⟩
      simp [authTokenLoop, hb, htr, List.replicate_succ]

/-- The trace of lines 57-61 holds the connector call and, when the connector
was built, the handshake; it holds no provider call. -/
theorem connectWith_trace (env : Env σ Err Cred Connector Conn) (cfg : Config) (s : σ) :
    tokenCalls (connectWith env cfg s).trace = 0 ∧
      handedConfigs (connectWith env cfg s).trace = [cfg] ∧
      ∀ ev ∈ (connectWith env cfg s).trace, ev.isBuildAuthToken = false := by
  unfold connectWith
  rcases hc : env.NewConnector cfg s with ⟨e | c, s1⟩ <;>
    simp [tokenCalls, Event.isBuildAuthToken, handedConfigs]

/-- In override mode the trace of `Open` on a connection string that parses is
the parser call, then between one and `maxAuthTokenRetries` identical provider
calls, then calls that are not provider calls. -/
theorem open_override_trace (env : Env σ Err Cred Connector Conn) (m : MysqlIAM Cred)
    (dsn : String) (s s1 : σ) (cfg : Config)
    (hover : m.OverridePassword = true)
    (hparse : env.ParseDSN dsn s = (Except.ok cfg, s1)) :
    ∃ k rest, 0 < k ∧ k ≤ maxAuthTokenRetries ∧
      (m.Open env dsn s).trace = Event.parseDSN dsn ::
        (List.replicate k
          (Event.buildAuthToken cfg.Addr m.AWSRegion cfg.User m.AWSCredentials) ++ rest) ∧
      tokenCalls rest = 0 ∧ ∀ ev ∈ rest, ev.isBuildAuthToken = false := by
  obtain ⟨k, hk, hpos, htr⟩ := authTokenLoop_trace env m cfg maxAuthTokenRetries "" none s1
  rcases hl : authTokenLoop env m cfg maxAuthTokenRetries "" none s1 with ⟨tok, err, s2, tr⟩
  rw [hl] at htr
  simp only at htr
  cases err with
  | some e =>
    refine ⟨k, [], hpos (by decide), hk, ?_, rfl, ?_⟩
    · simp [MysqlIAM.Open, hparse, hover, hl, htr]
    · intro ev hev
      cases hev
  | none =>
    refine ⟨k, (connectWith env { cfg with Passwd := tok } s2).trace, hpos (by decide), hk,
      ?_, (connectWith_trace env _ s2).1, (connectWith_trace env _ s2).2.2⟩
    simp [MysqlIAM.Open, hparse, hover, hl, htr]

theorem networkAttempts_append (xs ys : List (Event Cred Connector)) :
    networkAttempts (xs ++ ys) = networkAttempts xs + networkAttempts ys := by
  simp [networkAttempts, List.filter_append]

/-- Lines 57-61 either stop at the connector, with no handshake, or make the
connector call and one handshake whose Go result and world they return. -/
theorem connectWith_handshake (env : Env σ Err Cred Connector Conn) (cfg : Config) (s : σ) :
    networkAttempts (connectWith env cfg s).trace = 0 ∨
      ∃ (c : Connector) (sb : σ), env.NewConnector cfg s = (Except.ok c, sb) ∧
        (connectWith env cfg s).trace = [Event.newConnector cfg, Event.connect c] ∧
        env.Connect c sb = (((connectWith env cfg s).conn, (connectWith env cfg s).err),
          (connectWith env cfg s).world) := by
  unfold connectWith
  rcases hc : env.NewConnector cfg s with ⟨e | c, s1⟩
  · left
    simp [networkAttempts, Event.isConnect]
  · right
    rcases hh : env.Connect c s1 with ⟨⟨cn, er⟩, s2⟩
    exact ⟨c, s1, rfl, by simp [hh], by simp [hh]⟩

/-- When `mysql.NewConnector` builds the connector, lines 57-61 make the
handshake on it and return its Go result and world. -/
theorem connectWith_ok (env : Env σ Err Cred Connector Conn) (cfg : Config) (s s1 : σ)
    (c : Connector) (h : env.NewConnector cfg s = (Except.ok c, s1)) :
    (connectWith env cfg s).trace = [Event.newConnector cfg, Event.connect c] ∧
      env.Connect c s1 = (((connectWith env cfg s).conn, (connectWith env cfg s).err),
        (connectWith env cfg s).world) := by
  unfold connectWith
  rcases hh : env.Connect c s1 with ⟨⟨cn, er⟩, s2⟩
  simp [h, hh]

/-- When `mysql.NewConnector` fails, lines 57-61 return its error and world. -/
theorem connectWith_error (env : Env σ Err Cred Connector Conn) (cfg : Config) (s s1 : σ)
    (e : Err) (h : env.NewConnector cfg s = (Except.error e, s1)) :
    (connectWith env cfg s).trace = [Event.newConnector cfg] ∧
      (connectWith env cfg s).conn = none ∧ (connectWith env cfg s).err = some e ∧
      (connectWith env cfg s).world = s1 := by
  simp [connectWith, h]

/-- In override mode, after a successful first provider call, `Open` is lines
57-61 on the parsed configuration with the token as password, run from the
world that call left. -/
theorem open_after_first_success (env : Env σ Err Cred Connector Conn) (m : MysqlIAM Cred)
    (dsn : String) (s s1 s2 : σ) (cfg : Config) (tok : String)
    (hover : m.OverridePassword = true)
    (hparse : env.ParseDSN dsn s = (Except.ok cfg, s1))
    (h1 : env.BuildAuthToken cfg.Addr m.AWSRegion cfg.User m.AWSCredentials s1
      = ((tok, none), s2)) :
    m.Open env dsn s = { connectWith env { cfg with Passwd := tok } s2 with
      trace := Event.parseDSN dsn ::
        Event.buildAuthToken cfg.Addr m.AWSRegion cfg.User m.AWSCredentials ::
        (connectWith env { cfg with Passwd := tok } s2).trace } := by
  simp [MysqlIAM.Open, hparse, hover, maxAuthTokenRetries, authTokenLoop, h1]

/-- The same after a failed first call and a successful second one. -/
theorem open_after_second_success (env : Env σ Err Cred Connector Conn) (m : MysqlIAM Cred)
    (dsn : String) (s s1 s2 s3 : σ) (cfg : Config) (t1 tok : String) (e1 : Err)
    (hover : m.OverridePassword = true)
    (hparse : env.ParseDSN dsn s = (Except.ok cfg, s1))
    (h1 : env.BuildAuthToken cfg.Addr m.AWSRegion cfg.User m.AWSCredentials s1
      = ((t1, some e1), s2))
    (h2 : env.BuildAuthToken cfg.Addr m.AWSRegion cfg.User m.AWSCredentials s2
      = ((tok, none), s3)) :
    m.Open env dsn s = { connectWith env { cfg with Passwd := tok } s3 with
      trace := Event.parseDSN dsn ::
        Event.buildAuthToken cfg.Addr m.AWSRegion cfg.User m.AWSCredentials ::
        Event.buildAuthToken cfg.Addr m.AWSRegion cfg.User m.AWSCredentials ::
        (connectWith env { cfg with Passwd := tok } s3).trace } := by
  simp [MysqlIAM.Open, hparse, hover, maxAuthTokenRetries, authTokenLoop, h1, h2]

/-- With override mode off, `Open` is lines 57-61 on the parsed configuration,
run from the world the parser left. -/
theorem open_static (env : Env σ Err Cred Connector Conn) (m : MysqlIAM Cred)
    (dsn : String) (s s1 : σ) (cfg : Config)
    (hover : m.OverridePassword = false)
    (hparse : env.ParseDSN dsn s = (Except.ok cfg, s1)) :
    m.Open env dsn s = { connectWith env cfg s1 with
      trace := Event.parseDSN dsn :: (connectWith env cfg s1).trace } := by
  simp [MysqlIAM.Open, hparse, hover]

end Lemmas

/-! ## Claims about `MysqlIAM.Open` -/

section Claims

variable {σ Err Cred Connector Conn : Type}

/-- C1: in override mode, for a connection string that parses, when the
token-building call fails on both of the two allowed attempts, `Open` returns an
error and no connection, and neither `mysql.NewConnector` nor
`connector.Connect` is called: the network-attempt count is zero. -/
theorem open_aborts_when_both_attempts_fail (env : Env σ Err Cred Connector Conn)
    (m : MysqlIAM Cred) (dsn : String) (s s1 s2 s3 : σ) (cfg : Config) (t1 t2 : String)
    (e1 e2 : Err)
    (hover : m.OverridePassword = true)
    (hparse : env.ParseDSN dsn s = (Except.ok cfg, s1))
    (h1 : env.BuildAuthToken cfg.Addr m.AWSRegion cfg.User m.AWSCredentials s1
      = ((t1, some e1), s2))
    (h2 : env.BuildAuthToken cfg.Addr m.AWSRegion cfg.User m.AWSCredentials s2
      = ((t2, some e2), s3)) :
    (m.Open env dsn s).err ≠ none ∧ (m.Open env dsn s).conn = none ∧
      connectorCalls (m.Open env dsn s).trace = 0 ∧
      networkAttempts (m.Open env dsn s).trace = 0 := by
  simp [MysqlIAM.Open, hparse, hover, maxAuthTokenRetries, authTokenLoop, h1, h2,
    connectorCalls, networkAttempts, Event.isNewConnector, Event.isConnect]

/-- C1 at the scenario's connection string with a provider that fails twice. -/
theorem open_aborts_when_both_attempts_fail_witness :
    (scenarioIAM.Open (scriptedEnv [("", some "e1"), ("", some "e2")] true true)
        scenarioDSN 0).err ≠ none ∧
      (scenarioIAM.Open (scriptedEnv [("", some "e1"), ("", some "e2")] true true)
        scenarioDSN 0).conn = none ∧
      connectorCalls (scenarioIAM.Open
        (scriptedEnv [("", some "e1"), ("", some "e2")] true true) scenarioDSN 0).trace = 0 ∧
      networkAttempts (scenarioIAM.Open
        (scriptedEnv [("", some "e1"), ("", some "e2")] true true) scenarioDSN 0).trace = 0 :=
  open_aborts_when_both_attempts_fail
    (scriptedEnv [("", some "e1"), ("", some "e2")] true true) scenarioIAM scenarioDSN
    0 0 1 2 scenarioConfig "" "" "e1" "e2" rfl rfl rfl rfl

/-- C3: in override mode, for a connection string that parses, when the
token-building call succeeds on attempt 1, `Open` calls the provider exactly
once: its external calls are the parser, that one provider call, then
`mysql.NewConnector` on the parsed configuration with the token as password,
made in the world the one provider call left, and the handshake if the
connector was built; what `Open` returns is the result of that handshake, or
the connector's error. -/
theorem provider_called_once_when_first_attempt_succeeds
    (env : Env σ Err Cred Connector Conn) (m : MysqlIAM Cred) (dsn : String) (s s1 s2 : σ)
    (cfg : Config) (tok : String)
    (hover : m.OverridePassword = true)
    (hparse : env.ParseDSN dsn s = (Except.ok cfg, s1))
    (h1 : env.BuildAuthToken cfg.Addr m.AWSRegion cfg.User m.AWSCredentials s1
      = ((tok, none), s2)) :
    tokenCalls (m.Open env dsn s).trace = 1 ∧
      (∀ (c : Connector) (s3 : σ),
        env.NewConnector { cfg with Passwd := tok } s2 = (Except.ok c, s3) →
        (m.Open env dsn s).trace = [Event.parseDSN dsn,
          Event.buildAuthToken cfg.Addr m.AWSRegion cfg.User m.AWSCredentials,
          Event.newConnector { cfg with Passwd := tok }, Event.connect c] ∧
        env.Connect c s3 =
          (((m.Open env dsn s).conn, (m.Open env dsn s).err), (m.Open env dsn s).world)) ∧
      (∀ (e : Err) (s3 : σ),
        env.NewConnector { cfg with Passwd := tok } s2 = (Except.error e, s3) →
        (m.Open env dsn s).trace = [Event.parseDSN dsn,
          Event.buildAuthToken cfg.Addr m.AWSRegion cfg.User m.AWSCredentials,
          Event.newConnector { cfg with Passwd := tok }] ∧
        (m.Open env dsn s).conn = none ∧ (m.Open env dsn s).err = some e ∧
        (m.Open env dsn s).world = s3) := by
  rw [open_after_first_success env m dsn s s1 s2 cfg tok hover hparse h1]
  refine ⟨?_, ?_, ?_⟩
  · have h0 := (connectWith_trace env { cfg with Passwd := tok } s2).1
    simp only [tokenCalls] at h0 ⊢
    simp [List.filter_cons, Event.isBuildAuthToken, h0]
  · intro c s3 hc
    obtain ⟨htr, hres⟩ := connectWith_ok env _ s2 s3 c hc
    exact ⟨by simp [htr], hres⟩
  · intro e s3 hc
    obtain ⟨htr, hconn, herr, hw⟩ := connectWith_error env _ s2 s3 e hc
    exact ⟨by simp [htr], hconn, herr, hw⟩

/-- C3 at the scenario: the provider answers `tok-123` on its first call. The
world of the test double counts the provider calls: it ends at 1, and the
connection was opened with password `tok-123`. -/
theorem provider_called_once_when_first_attempt_succeeds_witness :
    tokenCalls (scenarioIAM.Open (scriptedEnv [("tok-123", none)] true true)
        scenarioDSN 0).trace = 1 ∧
      (scenarioIAM.Open (scriptedEnv [("tok-123", none)] true true) scenarioDSN 0).world
        = 1 ∧
      (scenarioIAM.Open (scriptedEnv [("tok-123", none)] true true) scenarioDSN 0).conn
        = some { scenarioConfig with Passwd := "tok-123" } ∧
      (scriptedEnv [("tok-123", none)] true true).Connect
          { scenarioConfig with Passwd := "tok-123" } 1 =
        (((scenarioIAM.Open (scriptedEnv [("tok-123", none)] true true) scenarioDSN 0).conn,
          (scenarioIAM.Open (scriptedEnv [("tok-123", none)] true true) scenarioDSN 0).err),
          (scenarioIAM.Open (scriptedEnv [("tok-123", none)] true true)
            scenarioDSN 0).world) :=
  ⟨(provider_called_once_when_first_attempt_succeeds
      (scriptedEnv [("tok-123", none)] true true) scenarioIAM scenarioDSN 0 0 1
      scenarioConfig "tok-123" rfl rfl rfl).1,
    by decide, by decide,
    ((provider_called_once_when_first_attempt_succeeds
      (scriptedEnv [("tok-123", none)] true true) scenarioIAM scenarioDSN 0 0 1
      scenarioConfig "tok-123" rfl rfl rfl).2.1
      { scenarioConfig with Passwd := "tok-123" } 1 rfl).2⟩

/-- C5: with override mode off, for a connection string that parses, `Open`
makes no token-building call: right after the parser it calls
`mysql.NewConnector` on exactly the parsed configuration, password included, in
the world the parser left, then makes the handshake if the connector was built;
what `Open` returns is the result of that handshake, or the connector's
error. -/
theorem static_password_used_when_override_disabled
    (env : Env σ Err Cred Connector Conn) (m : MysqlIAM Cred) (dsn : String) (s s1 : σ)
    (cfg : Config)
    (hover : m.OverridePassword = false)
    (hparse : env.ParseDSN dsn s = (Except.ok cfg, s1)) :
    tokenCalls (m.Open env dsn s).trace = 0 ∧
      handedConfigs (m.Open env dsn s).trace = [cfg] ∧
      (∀ c ∈ handedConfigs (m.Open env dsn s).trace, c.Passwd = cfg.Passwd) ∧
      (∀ (c : Connector) (s2 : σ), env.NewConnector cfg s1 = (Except.ok c, s2) →
        (m.Open env dsn s).trace
          = [Event.parseDSN dsn, Event.newConnector cfg, Event.connect c] ∧
        env.Connect c s2 =
          (((m.Open env dsn s).conn, (m.Open env dsn s).err), (m.Open env dsn s).world)) ∧
      (∀ (e : Err) (s2 : σ), env.NewConnector cfg s1 = (Except.error e, s2) →
        (m.Open env dsn s).trace = [Event.parseDSN dsn, Event.newConnector cfg] ∧
        (m.Open env dsn s).conn = none ∧ (m.Open env dsn s).err = some e ∧
        (m.Open env dsn s).world = s2) := by
  rw [open_static env m dsn s s1 cfg hover hparse]
  obtain ⟨h0, hh, _⟩ := connectWith_trace env cfg s1
  refine ⟨?_, ?_, ?_, ?_, ?_⟩
  · simp only [tokenCalls] at h0 ⊢
    simp [List.filter_cons, Event.isBuildAuthToken, h0]
  · simp [handedConfigs, hh]
  · simp [handedConfigs, hh]
  · intro c s2 hc
    obtain ⟨htr, hres⟩ := connectWith_ok env cfg s1 s2 c hc
    exact ⟨by simp [htr], hres⟩
  · intro e s2 hc
    obtain ⟨htr, hconn, herr, hw⟩ := connectWith_error env cfg s1 s2 e hc
    exact ⟨by simp [htr], hconn, herr, hw⟩

/-- C5 at the scenario's connection string: no provider call is made (the world
of the test double, which counts them, stays 0) and the connection is opened
with the parsed configuration, whose password is `placeholder`. -/
theorem static_password_used_when_override_disabled_witness :
    tokenCalls (staticIAM.Open (scriptedEnv [("tok-123", none)] true true)
        scenarioDSN 0).trace = 0 ∧
      handedConfigs (staticIAM.Open (scriptedEnv [("tok-123", none)] true true)
        scenarioDSN 0).trace = [scenarioConfig] ∧
      (staticIAM.Open (scriptedEnv [("tok-123", none)] true true) scenarioDSN 0).world = 0 ∧
      (staticIAM.Open (scriptedEnv [("tok-123", none)] true true) scenarioDSN 0).conn
        = some scenarioConfig ∧
      scenarioConfig.Passwd = "placeholder" ∧
      (scriptedEnv [("tok-123", none)] true true).Connect scenarioConfig 0 =
        (((staticIAM.Open (scriptedEnv [("tok-123", none)] true true) scenarioDSN 0).conn,
          (staticIAM.Open (scriptedEnv [("tok-123", none)] true true) scenarioDSN 0).err),
          (staticIAM.Open (scriptedEnv [("tok-123", none)] true true) scenarioDSN 0).world) :=
  ⟨(static_password_used_when_override_disabled
      (scriptedEnv [("tok-123", none)] true true) staticIAM scenarioDSN 0 0 scenarioConfig
      rfl rfl).1,
    (static_password_used_when_override_disabled
      (scriptedEnv [("tok-123", none)] true true) staticIAM scenarioDSN 0 0 scenarioConfig
      rfl rfl).2.1,
    by decide, by decide, by decide,
    ((static_password_used_when_override_disabled
      (scriptedEnv [("tok-123", none)] true true) staticIAM scenarioDSN 0 0 scenarioConfig
      rfl rfl).2.2.2.1 scenarioConfig 0 rfl).2⟩

/-- C6: when parsing the connection string fails, `Open` returns the parse
error and no connection at once, whatever `OverridePassword` is: the parser is
the only collaborator called, so there is no token-building call, no connector
and no handshake. -/
theorem parse_failure_aborts_open (env : Env σ Err Cred Connector Conn) (m : MysqlIAM Cred)
    (dsn : String) (s s1 : σ) (e : Err)
    (hparse : env.ParseDSN dsn s = (Except.error e, s1)) :
    (m.Open env dsn s).conn = none ∧ (m.Open env dsn s).err = some e ∧
      (m.Open env dsn s).trace = [Event.parseDSN dsn] ∧
      tokenCalls (m.Open env dsn s).trace = 0 ∧
      connectorCalls (m.Open env dsn s).trace = 0 ∧
      networkAttempts (m.Open env dsn s).trace = 0 := by
  simp [MysqlIAM.Open, hparse, tokenCalls, connectorCalls, networkAttempts,
    Event.isBuildAuthToken, Event.isNewConnector, Event.isConnect]

/-- C6 at a malformed connection string, in override mode. -/
theorem parse_failure_aborts_open_witness :
    (scenarioIAM.Open (scriptedEnv [("tok-123", none)] true true) "@@" 0).conn = none ∧
      (scenarioIAM.Open (scriptedEnv [("tok-123", none)] true true) "@@" 0).err
        = some "invalid DSN" ∧
      (scenarioIAM.Open (scriptedEnv [("tok-123", none)] true true) "@@" 0).trace
        = [Event.parseDSN "@@"] ∧
      tokenCalls (scenarioIAM.Open (scriptedEnv [("tok-123", none)] true true)
        "@@" 0).trace = 0 ∧
      connectorCalls (scenarioIAM.Open (scriptedEnv [("tok-123", none)] true true)
        "@@" 0).trace = 0 ∧
      networkAttempts (scenarioIAM.Open (scriptedEnv [("tok-123", none)] true true)
        "@@" 0).trace = 0 :=
  parse_failure_aborts_open (scriptedEnv [("tok-123", none)] true true) scenarioIAM "@@"
    0 0 "invalid DSN" rfl

/-- C8: in override mode, for a connection string that parses, the provider is
called at most `maxAuthTokenRetries` = 2 times per `Open`, and when both
attempts fail `Open` returns the error of the second attempt and no
connection. -/
theorem token_attempts_bounded_and_last_error_returned
    (env : Env σ Err Cred Connector Conn) (m : MysqlIAM Cred) (dsn : String) (s s1 : σ)
    (cfg : Config)
    (hover : m.OverridePassword = true)
    (hparse : env.ParseDSN dsn s = (Except.ok cfg, s1)) :
    tokenCalls (m.Open env dsn s).trace ≤ 2 ∧
      ∀ (t1 t2 : String) (e1 e2 : Err) (s2 s3 : σ),
        env.BuildAuthToken cfg.Addr m.AWSRegion cfg.User m.AWSCredentials s1
          = ((t1, some e1), s2) →
        env.BuildAuthToken cfg.Addr m.AWSRegion cfg.User m.AWSCredentials s2
          = ((t2, some e2), s3) →
        (m.Open env dsn s).err = some e2 ∧ (m.Open env dsn s).conn = none ∧
          tokenCalls (m.Open env dsn s).trace = 2 := by
  constructor
  · obtain ⟨k, rest, _, hk, htr, hrest, _⟩ := open_override_trace env m dsn s s1 cfg hover hparse
    have hsplit : tokenCalls (m.Open env dsn s).trace = k + tokenCalls rest := by
      rw [htr]
      have := @tokenCalls_replicate Cred Connector k cfg.Addr m.AWSRegion cfg.User
        m.AWSCredentials
      simp only [tokenCalls] at this ⊢
      simp [List.filter_cons, Event.isBuildAuthToken, List.filter_append, this]
    rw [hsplit, hrest]
    exact hk
  · intro t1 t2 e1 e2 s2 s3 h1 h2
    simp [MysqlIAM.Open, hparse, hover, maxAuthTokenRetries, authTokenLoop, h1, h2,
      tokenCalls, Event.isBuildAuthToken]

/-- C8 at the scenario with a provider that fails with `e1`, then with `e2`. -/
theorem token_attempts_bounded_and_last_error_returned_witness :
    (scenarioIAM.Open (scriptedEnv [("", some "e1"), ("", some "e2")] true true)
        scenarioDSN 0).err = some "e2" ∧
      tokenCalls (scenarioIAM.Open (scriptedEnv [("", some "e1"), ("", some "e2")] true true)
        scenarioDSN 0).trace ≤ 2 :=
  ⟨((token_attempts_bounded_and_last_error_returned
      (scriptedEnv [("", some "e1"), ("", some "e2")] true true) scenarioIAM scenarioDSN
      0 0 scenarioConfig rfl rfl).2 "" "" "e1" "e2" 1 2 rfl rfl).1,
    (token_attempts_bounded_and_last_error_returned
      (scriptedEnv [("", some "e1"), ("", some "e2")] true true) scenarioIAM scenarioDSN
      0 0 scenarioConfig rfl rfl).1⟩

/-- C10: in override mode, for a connection string that parses, every
token-building attempt of `Open` is the call of `auth.BuildAuthToken` with the
parsed address, the registration's region, the parsed user and the
registration's credentials, whatever these values are, the empty string
included. The first attempt is always made, in the world the parser left; its
token, when it succeeds, is the password handed on. When it fails, the second
attempt is the same call in the world the first left: its token is the
password handed on, or its error is what `Open` returns. -/
theorem token_attempts_use_parsed_target (env : Env σ Err Cred Connector Conn)
    (m : MysqlIAM Cred) (dsn : String) (s s1 : σ) (cfg : Config)
    (hover : m.OverridePassword = true)
    (hparse : env.ParseDSN dsn s = (Except.ok cfg, s1)) :
    (∀ ev ∈ (m.Open env dsn s).trace, ev.isBuildAuthToken = true →
        ev = Event.buildAuthToken cfg.Addr m.AWSRegion cfg.User m.AWSCredentials) ∧
      Event.buildAuthToken cfg.Addr m.AWSRegion cfg.User m.AWSCredentials
        ∈ (m.Open env dsn s).trace ∧
      0 < tokenCalls (m.Open env dsn s).trace ∧
      (∀ (tok : String) (s2 : σ),
        env.BuildAuthToken cfg.Addr m.AWSRegion cfg.User m.AWSCredentials s1
          = ((tok, none), s2) →
        (∀ (c : Connector) (s3 : σ),
          env.NewConnector { cfg with Passwd := tok } s2 = (Except.ok c, s3) →
          env.Connect c s3 =
            (((m.Open env dsn s).conn, (m.Open env dsn s).err), (m.Open env dsn s).world)) ∧
        (∀ (e : Err) (s3 : σ),
          env.NewConnector { cfg with Passwd := tok } s2 = (Except.error e, s3) →
          (m.Open env dsn s).conn = none ∧ (m.Open env dsn s).err = some e ∧
          (m.Open env dsn s).world = s3)) ∧
      (∀ (t1 tok : String) (e1 : Err) (s2 s3 : σ),
        env.BuildAuthToken cfg.Addr m.AWSRegion cfg.User m.AWSCredentials s1
          = ((t1, some e1), s2) →
        env.BuildAuthToken cfg.Addr m.AWSRegion cfg.User m.AWSCredentials s2
          = ((tok, none), s3) →
        (∀ (c : Connector) (s4 : σ),
          env.NewConnector { cfg with Passwd := tok } s3 = (Except.ok c, s4) →
          env.Connect c s4 =
            (((m.Open env dsn s).conn, (m.Open env dsn s).err), (m.Open env dsn s).world)) ∧
        (∀ (e : Err) (s4 : σ),
          env.NewConnector { cfg with Passwd := tok } s3 = (Except.error e, s4) →
          (m.Open env dsn s).conn = none ∧ (m.Open env dsn s).err = some e ∧
          (m.Open env dsn s).world = s4)) ∧
      (∀ (t1 t2 : String) (e1 e2 : Err) (s2 s3 : σ),
        env.BuildAuthToken cfg.Addr m.AWSRegion cfg.User m.AWSCredentials s1
          = ((t1, some e1), s2) →
        env.BuildAuthToken cfg.Addr m.AWSRegion cfg.User m.AWSCredentials s2
          = ((t2, some e2), s3) →
        (m.Open env dsn s).conn = none ∧ (m.Open env dsn s).err = some e2 ∧
          (m.Open env dsn s).world = s3) := by
  refine ⟨?_, ?_, ?_, ?_, ?_, ?_⟩
  · obtain ⟨k, rest, _, _, htr, _, hrest⟩ :=
      open_override_trace env m dsn s s1 cfg hover hparse
    rw [htr]
    intro ev hev hb
    rcases List.mem_cons.1 hev with rfl | hev
    · simp [Event.isBuildAuthToken] at hb
    · rcases List.mem_append.1 hev with hev | hev
      · exact (List.mem_replicate.1 hev).2
      · rw [hrest ev hev] at hb
        cases hb
  · obtain ⟨k, rest, hpos, _, htr, _, _⟩ :=
      open_override_trace env m dsn s s1 cfg hover hparse
    obtain ⟨j, rfl⟩ : ∃ j, k = j + 1 := ⟨k - 1, by omega⟩
    rw [htr]
    simp [List.replicate_succ]
  · obtain ⟨k, rest, hpos, _, htr, _, _⟩ :=
      open_override_trace env m dsn s s1 cfg hover hparse
    obtain ⟨j, rfl⟩ : ∃ j, k = j + 1 := ⟨k - 1, by omega⟩
    rw [htr]
    simp [tokenCalls, List.replicate_succ, List.filter_cons, Event.isBuildAuthToken]
  · intro tok s2 h1
    rw [open_after_first_success env m dsn s s1 s2 cfg tok hover hparse h1]
    constructor
    · intro c s3 hc
      exact (connectWith_ok env _ s2 s3 c hc).2
    · intro e s3 hc
      exact (connectWith_error env _ s2 s3 e hc).2
  · intro t1 tok e1 s2 s3 h1 h2
    rw [open_after_second_success env m dsn s s1 s2 s3 cfg t1 tok e1 hover hparse h1 h2]
    constructor
    · intro c s4 hc
      exact (connectWith_ok env _ s3 s4 c hc).2
    · intro e s4 hc
      exact (connectWith_error env _ s3 s4 e hc).2
  · intro t1 t2 e1 e2 s2 s3 h1 h2
    simp [MysqlIAM.Open, hparse, hover, maxAuthTokenRetries, authTokenLoop, h1, h2]

/-- C10 with an empty region and an empty user, on a provider that shows the
arguments it was called with. When its first call fails and its second
succeeds, the connection is opened with the second call's token, which shows
the parsed address, the empty region, the empty user and the credentials; when
both calls fail, `Open` returns the second call's error, which shows the same
arguments. -/
theorem token_attempts_use_parsed_target_witness :
    anonymousConfig.User = "" ∧ regionlessIAM.AWSRegion = "" ∧
      Event.buildAuthToken "db.example.com:3306" "" "" "creds"
        ∈ (regionlessIAM.Open (echoEnv 1) anonymousDSN 0).trace ∧
      (regionlessIAM.Open (echoEnv 1) anonymousDSN 0).conn
        = some { anonymousConfig with Passwd := "db.example.com:3306|||creds" } ∧
      (regionlessIAM.Open (echoEnv 1) anonymousDSN 0).world = 2 ∧
      (regionlessIAM.Open (echoEnv 2) anonymousDSN 0).err
        = some "denied db.example.com:3306|||creds" ∧
      (regionlessIAM.Open (echoEnv 2) anonymousDSN 0).world = 2 :=
  ⟨rfl, rfl,
    (token_attempts_use_parsed_target (echoEnv 1) regionlessIAM anonymousDSN
      0 0 anonymousConfig rfl rfl).2.1,
    by decide, by decide,
    ((token_attempts_use_parsed_target (echoEnv 2) regionlessIAM anonymousDSN
      0 0 anonymousConfig rfl rfl).2.2.2.2.2
      "" "" "denied db.example.com:3306|||creds" "denied db.example.com:3306|||creds"
      1 2 rfl rfl).2.1,
    by decide⟩

/-- C2, as stated, fails: the provider fails once and then succeeds, yet
`mysql.NewConnector` rejects the configuration, so `Open` returns that error
without any handshake. -/
theorem retry_then_succeed_may_stop_before_handshake :
    scenarioIAM.OverridePassword = true ∧
      (scriptedEnv [("", some "e1"), ("tok-2", none)] false true).ParseDSN scenarioDSN 0
        = (Except.ok scenarioConfig, 0) ∧
      (scriptedEnv [("", some "e1"), ("tok-2", none)] false true).BuildAuthToken
        scenarioConfig.Addr scenarioIAM.AWSRegion scenarioConfig.User
        scenarioIAM.AWSCredentials 0 = (("", some "e1"), 1) ∧
      (scriptedEnv [("", some "e1"), ("tok-2", none)] false true).BuildAuthToken
        scenarioConfig.Addr scenarioIAM.AWSRegion scenarioConfig.User
        scenarioIAM.AWSCredentials 1 = (("tok-2", none), 2) ∧
      networkAttempts (scenarioIAM.Open
        (scriptedEnv [("", some "e1"), ("tok-2", none)] false true) scenarioDSN 0).trace = 0 ∧
      (scenarioIAM.Open (scriptedEnv [("", some "e1"), ("tok-2", none)] false true)
        scenarioDSN 0).conn = none ∧
      (scenarioIAM.Open (scriptedEnv [("", some "e1"), ("tok-2", none)] false true)
        scenarioDSN 0).err = some "invalid config" := by
  refine ⟨rfl, rfl, rfl, rfl, ?_, ?_, ?_⟩ <;> decide

/-- C2, amended: in override mode, for a connection string that parses, when
the token-building call fails once and then succeeds, the provider is called
exactly twice and the configuration handed to `mysql.NewConnector` is the parsed
one with the second call's token as password; when `mysql.NewConnector` accepts
it, `Open` makes one handshake and returns its result; when it rejects it,
`Open` returns that error and makes no handshake. -/
theorem retry_then_succeed_uses_second_token (env : Env σ Err Cred Connector Conn)
    (m : MysqlIAM Cred) (dsn : String) (s s1 s2 s3 : σ) (cfg : Config) (t1 tok : String)
    (e1 : Err)
    (hover : m.OverridePassword = true)
    (hparse : env.ParseDSN dsn s = (Except.ok cfg, s1))
    (h1 : env.BuildAuthToken cfg.Addr m.AWSRegion cfg.User m.AWSCredentials s1
      = ((t1, some e1), s2))
    (h2 : env.BuildAuthToken cfg.Addr m.AWSRegion cfg.User m.AWSCredentials s2
      = ((tok, none), s3)) :
    tokenCalls (m.Open env dsn s).trace = 2 ∧
      handedConfigs (m.Open env dsn s).trace = [{ cfg with Passwd := tok }] ∧
      (∀ (c : Connector) (s4 : σ),
        env.NewConnector { cfg with Passwd := tok } s3 = (Except.ok c, s4) →
        networkAttempts (m.Open env dsn s).trace = 1 ∧
          Event.connect c ∈ (m.Open env dsn s).trace ∧
          ((m.Open env dsn s).conn, (m.Open env dsn s).err) = (env.Connect c s4).1) ∧
      (∀ (e : Err) (s4 : σ),
        env.NewConnector { cfg with Passwd := tok } s3 = (Except.error e, s4) →
        networkAttempts (m.Open env dsn s).trace = 0 ∧
          (m.Open env dsn s).conn = none ∧ (m.Open env dsn s).err = some e) := by
  simp only [MysqlIAM.Open, hparse, hover, maxAuthTokenRetries, authTokenLoop, h1, h2,
    connectWith]
  rcases hc : env.NewConnector { cfg with Passwd := tok } s3 with ⟨e | c, s4⟩
  · simp [tokenCalls, networkAttempts, handedConfigs, Event.isBuildAuthToken,
      Event.isConnect]
  · rcases hh : env.Connect c s4 with ⟨⟨cn, er⟩, s5⟩
    simp [tokenCalls, networkAttempts, handedConfigs, Event.isBuildAuthToken,
      Event.isConnect, hh]

/-- C2, amended, at the scenario: the provider fails, then answers `tok-2`. -/
theorem retry_then_succeed_uses_second_token_witness :
    tokenCalls (scenarioIAM.Open (scriptedEnv [("", some "e1"), ("tok-2", none)] true true)
        scenarioDSN 0).trace = 2 ∧
      handedConfigs (scenarioIAM.Open
        (scriptedEnv [("", some "e1"), ("tok-2", none)] true true) scenarioDSN 0).trace
        = [{ scenarioConfig with Passwd := "tok-2" }] ∧
      networkAttempts (scenarioIAM.Open
        (scriptedEnv [("", some "e1"), ("tok-2", none)] true true) scenarioDSN 0).trace = 1 :=
  ⟨(retry_then_succeed_uses_second_token
      (scriptedEnv [("", some "e1"), ("tok-2", none)] true true) scenarioIAM scenarioDSN
      0 0 1 2 scenarioConfig "" "tok-2" "e1" rfl rfl rfl rfl).1,
    (retry_then_succeed_uses_second_token
      (scriptedEnv [("", some "e1"), ("tok-2", none)] true true) scenarioIAM scenarioDSN
      0 0 1 2 scenarioConfig "" "tok-2" "e1" rfl rfl rfl rfl).2.1,
    ((retry_then_succeed_uses_second_token
      (scriptedEnv [("", some "e1"), ("tok-2", none)] true true) scenarioIAM scenarioDSN
      0 0 1 2 scenarioConfig "" "tok-2" "e1" rfl rfl rfl rfl).2.2.1
      { scenarioConfig with Passwd := "tok-2" } 2 rfl).1⟩

/-- C4: in override mode, for a connection string that parses, whatever
password it carries, whenever `Open` attempts the handshake, exactly one
configuration was handed to `mysql.NewConnector`: the parsed one with its
password replaced by the token of the token-building call that succeeded (the
first, or the second after a failed first). Its password is that token, and so
is not the connection string's password unless the token is that very string. -/
theorem handshake_password_is_token (env : Env σ Err Cred Connector Conn)
    (m : MysqlIAM Cred) (dsn : String) (s s1 : σ) (cfg : Config)
    (hover : m.OverridePassword = true)
    (hparse : env.ParseDSN dsn s = (Except.ok cfg, s1))
    (hshake : networkAttempts (m.Open env dsn s).trace ≠ 0) :
    ∃ tok : String,
      ((∃ s2, env.BuildAuthToken cfg.Addr m.AWSRegion cfg.User m.AWSCredentials s1
          = ((tok, none), s2)) ∨
        (∃ t1 e1 s2 s3,
          env.BuildAuthToken cfg.Addr m.AWSRegion cfg.User m.AWSCredentials s1
            = ((t1, some e1), s2) ∧
          env.BuildAuthToken cfg.Addr m.AWSRegion cfg.User m.AWSCredentials s2
            = ((tok, none), s3))) ∧
      handedConfigs (m.Open env dsn s).trace = [{ cfg with Passwd := tok }] ∧
      ∀ c ∈ handedConfigs (m.Open env dsn s).trace,
        c.Passwd = tok ∧ (tok ≠ cfg.Passwd → c.Passwd ≠ cfg.Passwd) := by
  have key : ∀ (tok : String) (s3 : σ) (pre : List (Event Cred Connector)),
      handedConfigs pre = [] →
      handedConfigs (Event.parseDSN dsn ::
        (pre ++ (connectWith env { cfg with Passwd := tok } s3).trace))
        = [{ cfg with Passwd := tok }] := by
    intro tok s3 pre hpre
    simp [handedConfigs, handedConfigs_append, hpre, (connectWith_trace env _ s3).2.1]
  rcases hb1 : env.BuildAuthToken cfg.Addr m.AWSRegion cfg.User m.AWSCredentials s1 with
    ⟨⟨t1, _ | e1⟩, s2⟩
  · have htr : handedConfigs (m.Open env dsn s).trace = [{ cfg with Passwd := t1 }] := by
      simp only [MysqlIAM.Open, hparse, hover, maxAuthTokenRetries, authTokenLoop, hb1]
      exact key t1 s2 _ (by simp [handedConfigs])
    refine ⟨t1, Or.inl ⟨s2, rfl⟩, htr, ?_⟩
    intro c hc
    rw [htr] at hc
    rw [List.mem_singleton.1 hc]
    exact ⟨rfl, fun h => h⟩
  · rcases hb2 : env.BuildAuthToken cfg.Addr m.AWSRegion cfg.User m.AWSCredentials s2 with
      ⟨⟨t2, _ | e2⟩, s3⟩
    · have htr : handedConfigs (m.Open env dsn s).trace = [{ cfg with Passwd := t2 }] := by
        simp only [MysqlIAM.Open, hparse, hover, maxAuthTokenRetries, authTokenLoop, hb1, hb2]
        exact key t2 s3 _ (by simp [handedConfigs])
      refine ⟨t2, Or.inr ⟨t1, e1, s2, s3, rfl, hb2⟩, htr, ?_⟩
      intro c hc
      rw [htr] at hc
      rw [List.mem_singleton.1 hc]
      exact ⟨rfl, fun h => h⟩
    · exfalso
      apply hshake
      simp [MysqlIAM.Open, hparse, hover, maxAuthTokenRetries, authTokenLoop, hb1, hb2,
        networkAttempts, Event.isConnect]

/-- C4 at the specification's scenario: the handshake is attempted and every
configuration handed to the connector carries a password other than
`placeholder`. -/
theorem handshake_password_is_token_witness :
    networkAttempts (scenarioIAM.Open (scriptedEnv [("tok-123", none)] true true)
        scenarioDSN 0).trace ≠ 0 ∧
      ∀ c ∈ handedConfigs (scenarioIAM.Open (scriptedEnv [("tok-123", none)] true true)
        scenarioDSN 0).trace, c.Passwd ≠ "placeholder" := by
  refine ⟨by decide, ?_⟩
  obtain ⟨tok, hsrc, _, hall⟩ := handshake_password_is_token
    (scriptedEnv [("tok-123", none)] true true) scenarioIAM scenarioDSN 0 0 scenarioConfig
    rfl rfl (by decide)
  have htok : tok = "tok-123" := by
    rcases hsrc with ⟨s2, h⟩ | ⟨t1, e1, s2, s3, h, _⟩
    · exact ((Prod.mk.inj (Prod.mk.inj h).1).1).symm
    · exact Option.noConfusion (Prod.mk.inj (Prod.mk.inj h).1).2
  intro c hc
  exact (hall c hc).2 (by rw [htok]; decide)

/-- C7: whenever a call of `Open` reaches the handshake, `connector.Connect` is
called exactly once, on the connector `mysql.NewConnector` returned, it is the
last external call of `Open` (so no handshake retry and no token-building call
follows it), and `Open` returns its Go result pair, connection or error,
unchanged. -/
theorem handshake_once_and_result_unchanged (env : Env σ Err Cred Connector Conn)
    (m : MysqlIAM Cred) (dsn : String) (s : σ)
    (hshake : networkAttempts (m.Open env dsn s).trace ≠ 0) :
    networkAttempts (m.Open env dsn s).trace = 1 ∧
      ∃ (pre : List (Event Cred Connector)) (cfgH : Config) (c : Connector) (sa sb : σ),
        (m.Open env dsn s).trace = pre ++ [Event.newConnector cfgH, Event.connect c] ∧
        networkAttempts pre = 0 ∧
        env.NewConnector cfgH sa = (Except.ok c, sb) ∧
        env.Connect c sb =
          (((m.Open env dsn s).conn, (m.Open env dsn s).err), (m.Open env dsn s).world) := by
  have step : ∀ (cfgH : Config) (sa : σ) (pre : List (Event Cred Connector)),
      networkAttempts pre = 0 →
      networkAttempts (pre ++ (connectWith env cfgH sa).trace) ≠ 0 →
      networkAttempts (pre ++ (connectWith env cfgH sa).trace) = 1 ∧
        ∃ (c : Connector) (sb : σ),
          pre ++ (connectWith env cfgH sa).trace
            = pre ++ [Event.newConnector cfgH, Event.connect c] ∧
          env.NewConnector cfgH sa = (Except.ok c, sb) ∧
          env.Connect c sb = (((connectWith env cfgH sa).conn, (connectWith env cfgH sa).err),
            (connectWith env cfgH sa).world) := by
    intro cfgH sa pre hpre hne
    rcases connectWith_handshake env cfgH sa with h0 | ⟨c, sb, hnc, htr, hres⟩
    · exact absurd (by rw [networkAttempts_append, hpre, h0]) hne
    · refine ⟨?_, c, sb, by rw [htr], hnc, hres⟩
      rw [networkAttempts_append, hpre, htr]
      simp [networkAttempts, Event.isConnect]
  rcases hp : env.ParseDSN dsn s with ⟨e | cfg, s1⟩
  · exact absurd (by simp [MysqlIAM.Open, hp, networkAttempts, Event.isConnect]) hshake
  · cases hover : m.OverridePassword with
    | false =>
      have htr : m.Open env dsn s = { connectWith env cfg s1 with
          trace := [Event.parseDSN dsn] ++ (connectWith env cfg s1).trace } := by
        simp [MysqlIAM.Open, hp, hover]
      rw [htr] at hshake ⊢
      obtain ⟨h1, c, sb, h2, h3, h4⟩ := step cfg s1 [Event.parseDSN dsn]
        (by simp [networkAttempts, Event.isConnect]) hshake
      exact ⟨h1, [Event.parseDSN dsn], cfg, c, s1, sb, h2,
        by simp [networkAttempts, Event.isConnect], h3, h4⟩
    | true =>
      obtain ⟨k, _, _, hk⟩ := authTokenLoop_trace env m cfg maxAuthTokenRetries "" none s1
      rcases hl : authTokenLoop env m cfg maxAuthTokenRetries "" none s1 with
        ⟨tok, err, s2, tr⟩
      rw [hl] at hk
      simp only at hk
      have hpre : networkAttempts (Event.parseDSN dsn :: tr) = 0 := by
        have := @networkAttempts_replicate Cred Connector k cfg.Addr m.AWSRegion
          cfg.User m.AWSCredentials
        rw [← hk] at this
        simpa [networkAttempts, List.filter_cons, Event.isConnect] using this
      cases err with
      | some e =>
        exact absurd (by simpa [MysqlIAM.Open, hp, hover, hl] using hpre) hshake
      | none =>
        have htr : m.Open env dsn s = { connectWith env { cfg with Passwd := tok } s2 with
            trace := (Event.parseDSN dsn :: tr)
              ++ (connectWith env { cfg with Passwd := tok } s2).trace } := by
          simp [MysqlIAM.Open, hp, hover, hl]
        rw [htr] at hshake ⊢
        obtain ⟨h1, c, sb, h2, h3, h4⟩ := step { cfg with Passwd := tok } s2
          (Event.parseDSN dsn :: tr) hpre hshake
        exact ⟨h1, Event.parseDSN dsn :: tr, { cfg with Passwd := tok }, c, s2, sb, h2,
          hpre, h3, h4⟩

/-- C7 at the scenario with an unreachable server: one handshake, whose error
is what `Open` returns. -/
theorem handshake_once_and_result_unchanged_witness :
    networkAttempts (scenarioIAM.Open (scriptedEnv [("tok-123", none)] true false)
        scenarioDSN 0).trace ≠ 0 ∧
      networkAttempts (scenarioIAM.Open (scriptedEnv [("tok-123", none)] true false)
        scenarioDSN 0).trace = 1 ∧
      (scenarioIAM.Open (scriptedEnv [("tok-123", none)] true false) scenarioDSN 0).err
        = some "connection refused" :=
  ⟨by decide,
    (handshake_once_and_result_unchanged (scriptedEnv [("tok-123", none)] true false)
      scenarioIAM scenarioDSN 0 (by decide)).1,
    by decide⟩

end Claims

/-! ## Claims about `main` -/

section MainClaims

variable {σ Err Cred Pool : Type}

/-- C9: for every certificate bundle on which `AppendCertsFromPEM` reports
failure, `main` ends in `log.Fatal` (for the bundle, or earlier for the AWS
configuration) and takes none of the later steps: the `aws-rds` TLS profile is
not registered, the `mysql-aws-iam` driver is not registered, the database
handle is not opened and the database session, where connections are opened,
does not run. -/
theorem bad_bundle_stops_startup (env : MainEnv σ Err Cred Pool) (awsRootCAPem : List Nat)
    (s : σ)
    (hbad : (env.AppendCertsFromPEM env.NewCertPool awsRootCAPem).2 = false) :
    (∀ ev ∈ (main env awsRootCAPem s).trace, ev.registersOrOpens = false) ∧
      ((main env awsRootCAPem s).trace.getLast? = some (MainEvent.fatal "append PEM") ∨
        (main env awsRootCAPem s).trace.getLast? = some (MainEvent.fatal "load config:")) ∧
      ∀ (cfg : AwsConfig Cred) (s1 : σ), env.LoadDefaultConfig s = (Except.ok cfg, s1) →
        (main env awsRootCAPem s).trace = [MainEvent.loadDefaultConfig,
          MainEvent.appendCertsFromPEM awsRootCAPem, MainEvent.fatal "append PEM"] := by
  rcases ha : env.AppendCertsFromPEM env.NewCertPool awsRootCAPem with ⟨pool, ok⟩
  rw [ha] at hbad
  simp only at hbad
  subst hbad
  rcases hl : env.LoadDefaultConfig s with ⟨e | cfg, s1⟩ <;>
    simp [main, hl, ha, MainEvent.registersOrOpens]

/-- C9 at the empty certificate bundle. -/
theorem bad_bundle_stops_startup_witness :
    (scriptedMainEnv.AppendCertsFromPEM scriptedMainEnv.NewCertPool []).2 = false ∧
      (main scriptedMainEnv [] 0).trace = [MainEvent.loadDefaultConfig,
        MainEvent.appendCertsFromPEM [], MainEvent.fatal "append PEM"] :=
  ⟨rfl, (bad_bundle_stops_startup scriptedMainEnv [] 0 rfl).2.2
    { Region := "us-east-1", Credentials := "creds" } 1 rfl⟩

end MainClaims

end GoClient
